import Mathlib

set_option maxRecDepth 40000

/-!
Shallow embedding of `CODE_GENERIQUE_GEOJSON.py` (and its near-duplicate
`CODE_GENERIQUE_GEOJSON_SUPERSET.py`, which defines the same functions line
for line): a geometry data model, the coordinate counter
`total_coords_count`, the adaptive simplification search
`adaptive_polygon_simplify`, and the pure core of the pipeline
`geojson_to_excel_with_exploded_multipolygons`.

Modelling decisions:
* Geometry is a closed inductive mirroring the shapely classes the code
  dispatches on with `isinstance` (`Polygon`, `MultiPolygon`) plus the
  unsupported kinds it ignores (`LineString`, `Point`).  A ring is the list
  of its coordinate pairs, as exposed by shapely's `ring.coords` (the
  closing duplicate point included in the list, exactly as `len(ring.coords)`
  counts it).
* The real-valued tolerance arithmetic (`1e-10`, `tolerance *= min(error_ratio, 2)`,
  `total / target` true division) is carried out in `ℚ`, exactly.
* `geom.simplify(tolerance, preserve_topology=True)` is an external shapely
  primitive, out of scope per the spec; it is a function parameter
  `prim : Geometry → ℚ → Geometry` (the `preserve_topology=True` flag is
  constant in the source, so it is baked into the parameter).
* The `while` loop runs as structural recursion on the remaining fuel
  `max_iterations - iteration`; Python's `ZeroDivisionError` on
  `total / target_points` with `target_points = 0` is the `none` outcome.
* The loop embedding additionally records, per executed iteration, the pair
  (tolerance after step c, geometry simplified in step d); the function the
  Python source returns is the projection that drops this trace.
-/

/-- A 2D coordinate pair. -/
abbrev Point := ℚ × ℚ

/-- The geometry kinds the pipeline dispatches on: `Polygon` (exterior ring
plus interior rings), `MultiPolygon` (a list of polygon parts, each an
exterior ring with interior rings), and the unsupported kinds it skips. -/
inductive Geometry where
  | polygon (exterior : List Point) (interiors : List (List Point))
  | multiPolygon (parts : List (List Point × List (List Point)))
  | lineString (coords : List Point)
  | point (c : Point)
deriving DecidableEq

/-- `isinstance(geom, Polygon)`. -/
def Geometry.isPolygon : Geometry → Bool
  | .polygon _ _ => true
  | _ => false

/-- `isinstance(geom, Polygon) or isinstance(geom, MultiPolygon)`: the kinds
the decomposition step keeps. -/
def Geometry.isPolyKind : Geometry → Bool
  | .polygon _ _ => true
  | .multiPolygon _ => true
  | _ => false

/-- `total_coords_count(geom)`: for a Polygon, sum of `len(ring.coords)` over
`[geom.exterior] + list(geom.interiors)`; `0` for anything else. -/
def total_coords_count : Geometry → ℕ
  | .polygon exterior interiors => ((exterior :: interiors).map List.length).sum
  | _ => 0

/-- The initial tolerance `1e-10` of the search state, as an exact rational. -/
def initTolerance : ℚ := 1 / 10 ^ 10

/-- One tolerance update of the search loop:
`error_ratio = total_coords_count(simplified) / target_points` (true
division, exact here) followed by `tolerance *= min(error_ratio, 2)`. -/
def stepTol (target count : ℕ) (tol : ℚ) : ℚ :=
  tol * min ((count : ℚ) / (target : ℚ)) 2

/-- The `while total_coords_count(simplified) > 780 and iteration < max_iterations`
loop of `adaptive_polygon_simplify`, with `fuel = max_iterations - iteration`
decreasing to 0.  State: current `simplified` geometry and current `tolerance`.
Each executed iteration recomputes
`tolerance *= min(total_coords_count(simplified) / target_points, 2)` and
`simplified = geom.simplify(tolerance, preserve_topology=True)` from the
original `geom`, and is recorded as the pair `(tolerance, simplified)` in the
returned trace.  `none` is Python's `ZeroDivisionError` when
`target_points = 0`. -/
def searchLoop (prim : Geometry → ℚ → Geometry) (geom : Geometry) (target : ℕ) :
    ℕ → Geometry → ℚ → Option (Geometry × ℚ × List (ℚ × Geometry))
  | 0, simplified, tol => some (simplified, tol, [])
  | fuel + 1, simplified, tol =>
      if 780 < total_coords_count simplified then
        if target = 0 then none
        else
          let tol2 := stepTol target (total_coords_count simplified) tol
          let s2 := prim geom tol2
          (searchLoop prim geom target fuel s2 tol2).map
            (fun q => (q.1, q.2.1, (tol2, s2) :: q.2.2))
      else some (simplified, tol, [])

/-- `adaptive_polygon_simplify`, instrumented with the per-iteration trace:
fast path when `original <= target_points` (tolerance `0.0`, geometry
untouched, empty trace), otherwise one pre-loop pass
`simplified = geom.simplify(1e-10, preserve_topology=True)` followed by the
search loop. -/
def adaptive_simplify_run (prim : Geometry → ℚ → Geometry) (geom : Geometry)
    (target maxIter : ℕ) : Option (Geometry × ℚ × List (ℚ × Geometry)) :=
  if total_coords_count geom ≤ target then some (geom, 0, [])
  else searchLoop prim geom target maxIter (prim geom initTolerance) initTolerance

/-- `adaptive_polygon_simplify(geom, target_points, max_iterations)`: returns
`(simplified, tolerance, original, simplified_n)` exactly as the Python
function does (the instrumentation trace dropped); `none` is the uncaught
`ZeroDivisionError`. -/
def adaptive_polygon_simplify (prim : Geometry → ℚ → Geometry) (geom : Geometry)
    (target maxIter : ℕ) : Option (Geometry × ℚ × ℕ × ℕ) :=
  (adaptive_simplify_run prim geom target maxIter).map
    (fun q => (q.1, q.2.1, total_coords_count geom, total_coords_count q.1))

/-- The property mapping of a feature (`feature["properties"]`), modelled as
an association list of JSON key/value pairs with values kept as their
serialized text. -/
abbrev Props := List (String × String)

/-- One input feature: its geometry (already parsed, as `shape(...)` yields)
and its `properties` mapping (`feature.get("properties", {})`). -/
structure Feature where
  geometry : Geometry
  properties : Props
deriving DecidableEq

/-- The top-level parsed JSON object of the input file, restricted to the
fields the pipeline reads: `data.get("type")` (absent key gives `none`), the
`features` array read when the type is `"FeatureCollection"`, and the object
itself viewed as a feature when the type is `"Feature"`. -/
structure RawInput where
  typeField : Option String
  featuresField : List Feature
  selfFeature : Feature

/-- One row of the tabular (Excel) export: the copied properties, the
`geometry` cell (the compact JSON text of `{"type": "Feature", "geometry": geom_json}`)
and the `simplification_info` cell. -/
structure Record where
  props : Props
  geometry : String
  simplification_info : String
deriving DecidableEq

/-- One feature of the simplified output GeoJSON: the simplified geometry
with the source feature's properties. -/
structure OutFeature where
  geometry : Geometry
  properties : Props
deriving DecidableEq

/-- The `MultiPolygon`/`Polygon`/`continue` dispatch: `list(geom.geoms)` for
a MultiPolygon, `[geom]` for a Polygon, nothing for unsupported kinds. -/
def explodePolys : Geometry → List Geometry
  | .multiPolygon parts => parts.map (fun p => .polygon p.1 p.2)
  | .polygon e i => [.polygon e i]
  | _ => []

/-- The Feature Decomposer interface of the spec: the exploded polygons of a
feature, each paired with the feature's properties. -/
def decompose (f : Feature) : List (Geometry × Props) :=
  (explodePolys f.geometry).map (fun g => (g, f.properties))

/-- The `f"{orig_pts}→{simp_pts} points (tolérance={tol:.0e})"` summary.
`fmt` is Python's `.0e` float formatting, an external language builtin passed
in as a collaborator. -/
def formattedInfo (fmt : ℚ → String) (tol : ℚ) (origPts simpPts : ℕ) : String :=
  toString origPts ++ "→" ++ toString simpPts ++ " points (tolérance=" ++ fmt tol ++ ")"

/-- The per-polygon body of the pipeline loop: run
`adaptive_polygon_simplify(poly)` with its default `target_points=780` and
`max_iterations=400`, build the Excel record (properties, encoded geometry
cell, `simplification_info` chosen by `if tol > 0`) and the simplified
output feature.  `enc` is the external
`json.dumps({"type": "Feature", "geometry": mapping(g)}, ...)` encoder;
`none` propagates the uncaught exception of the simplifier. -/
def processPoly (prim : Geometry → ℚ → Geometry) (fmt : ℚ → String)
    (enc : Geometry → String) (props : Props) (poly : Geometry) :
    Option (Record × OutFeature) :=
  match adaptive_polygon_simplify prim poly 780 400 with
  | none => none
  | some (g, tol, origPts, simpPts) =>
      let info := if 0 < tol then formattedInfo fmt tol origPts simpPts
                  else "Aucune simplification"
      some ({ props := props, geometry := enc g, simplification_info := info },
            { geometry := g, properties := props })

/-- The inner `for poly in polys` loop: process each polygon in order,
collecting the Excel records and the simplified features in emission order. -/
def processPolys (prim : Geometry → ℚ → Geometry) (fmt : ℚ → String)
    (enc : Geometry → String) (props : Props) :
    List Geometry → Option (List Record × List OutFeature)
  | [] => some ([], [])
  | p :: ps =>
      match processPoly prim fmt enc props p with
      | none => none
      | some (rec, feat) =>
          match processPolys prim fmt enc props ps with
          | none => none
          | some (recs, feats) => some (rec :: recs, feat :: feats)

/-- The per-feature body of the pipeline loop: explode the geometry and
process each resulting polygon. -/
def processFeature (prim : Geometry → ℚ → Geometry) (fmt : ℚ → String)
    (enc : Geometry → String) (f : Feature) :
    Except String (List Record × List OutFeature) :=
  match processPolys prim fmt enc f.properties (explodePolys f.geometry) with
  | none => .error "ZeroDivisionError: division by zero"
  | some rf => .ok rf

/-- The outer `for feature in features` loop, accumulating `all_records` and
`simplified_features` across features in order. -/
def processFeatures (prim : Geometry → ℚ → Geometry) (fmt : ℚ → String)
    (enc : Geometry → String) :
    List Feature → Except String (List Record × List OutFeature)
  | [] => .ok ([], [])
  | f :: fs =>
      match processFeature prim fmt enc f with
      | .error e => .error e
      | .ok (recs, feats) =>
          match processFeatures prim fmt enc fs with
          | .error e => .error e
          | .ok (recs2, feats2) => .ok (recs ++ recs2, feats ++ feats2)

/-- The `FeatureCollection` / `Feature` / `raise ValueError` normalization at
the top of `geojson_to_excel_with_exploded_multipolygons`. -/
def normalizeFeatures (d : RawInput) : Except String (List Feature) :=
  if d.typeField = some "FeatureCollection" then .ok d.featuresField
  else if d.typeField = some "Feature" then .ok [d.selfFeature]
  else .error "Le fichier GeoJSON ne contient pas une Feature ou FeatureCollection valide."

/-- The pure core of `geojson_to_excel_with_exploded_multipolygons`: from the
parsed input object to the pair (Excel rows `all_records`, simplified GeoJSON
features `simplified_features`); file reading/writing is outside this core,
and an `.error` result is a raised exception, thrown before either output
file is written. -/
def geojson_to_excel_with_exploded_multipolygons (prim : Geometry → ℚ → Geometry)
    (fmt : ℚ → String) (enc : Geometry → String) (d : RawInput) :
    Except String (List Record × List OutFeature) :=
  match normalizeFeatures d with
  | .error e => .error e
  | .ok fs => processFeatures prim fmt enc fs

/-!  Lemmas about the tolerance update and the search loop. -/

/-- The tolerance update keeps a positive tolerance positive, provided the
current count and the target are positive. -/
lemma stepTol_pos {target count : ℕ} {tol : ℚ} (htol : 0 < tol)
    (hcount : 0 < count) (htarget : target ≠ 0) :
    0 < stepTol target count tol := by
  have h1 : (0 : ℚ) < (count : ℚ) / (target : ℚ) := by
    apply div_pos
    · exact_mod_cast hcount
    · exact_mod_cast Nat.pos_of_ne_zero htarget
  exact mul_pos htol (lt_min h1 (by norm_num))

/-- The tolerance update never more than doubles the tolerance. -/
lemma stepTol_le_two_mul {target count : ℕ} {tol : ℚ} (htol : 0 ≤ tol) :
    stepTol target count tol ≤ 2 * tol := by
  calc stepTol target count tol
      ≤ tol * 2 := mul_le_mul_of_nonneg_left (min_le_right _ _) htol
    _ = 2 * tol := mul_comm _ _

/-- The tolerance update is non-decreasing whenever the current count is at
least the (positive) target. -/
lemma le_stepTol {target count : ℕ} {tol : ℚ} (htol : 0 ≤ tol)
    (htarget : target ≠ 0) (hge : target ≤ count) :
    tol ≤ stepTol target count tol := by
  have h1 : (1 : ℚ) ≤ (count : ℚ) / (target : ℚ) := by
    rw [le_div_iff₀ (by exact_mod_cast Nat.pos_of_ne_zero htarget)]
    simpa using (Nat.cast_le (α := ℚ)).mpr hge
  have h2 : (1 : ℚ) ≤ min ((count : ℚ) / (target : ℚ)) 2 :=
    le_min h1 (by norm_num)
  calc tol = tol * 1 := (mul_one tol).symm
    _ ≤ tol * min ((count : ℚ) / (target : ℚ)) 2 :=
        mul_le_mul_of_nonneg_left h2 htol

/-- A successful search keeps a positive tolerance positive. -/
lemma searchLoop_tol_pos (prim : Geometry → ℚ → Geometry) (geom : Geometry)
    (target : ℕ) :
    ∀ fuel s tol g t tr, 0 < tol →
      searchLoop prim geom target fuel s tol = some (g, t, tr) → 0 < t := by
  intro fuel
  induction fuel with
  | zero =>
      intro s tol g t tr hpos h
      simp only [searchLoop, Option.some.injEq, Prod.mk.injEq] at h
      obtain ⟨-, h2, -⟩ := h
      exact h2 ▸ hpos
  | succ n ih =>
      intro s tol g t tr hpos h
      rw [searchLoop] at h
      by_cases h780 : 780 < total_coords_count s
      · rw [if_pos h780] at h
        by_cases htarget : target = 0
        · rw [if_pos htarget] at h
          exact absurd h (by simp)
        · rw [if_neg htarget] at h
          simp only [Option.map_eq_some'] at h
          obtain ⟨q, hq, hmk⟩ := h
          have ht2 : 0 < stepTol target (total_coords_count s) tol :=
            stepTol_pos hpos (by omega) htarget
          have hqpos := ih _ _ q.1 q.2.1 q.2.2 ht2 hq
          simp only [Prod.mk.injEq] at hmk
          obtain ⟨-, h2, -⟩ := hmk
          exact h2 ▸ hqpos
      · rw [if_neg h780] at h
        simp only [Option.some.injEq, Prod.mk.injEq] at h
        obtain ⟨-, h2, -⟩ := h
        exact h2 ▸ hpos

/-- The search terminates either because the count dropped to at most 780 or
because the fuel (the remaining allowed iterations) is exhausted, in which
case the trace records exactly `fuel` executed iterations. -/
lemma searchLoop_exit (prim : Geometry → ℚ → Geometry) (geom : Geometry)
    (target : ℕ) :
    ∀ fuel s tol g t tr,
      searchLoop prim geom target fuel s tol = some (g, t, tr) →
      total_coords_count g ≤ 780 ∨ tr.length = fuel := by
  intro fuel
  induction fuel with
  | zero =>
      intro s tol g t tr h
      simp only [searchLoop, Option.some.injEq, Prod.mk.injEq] at h
      obtain ⟨-, -, h3⟩ := h
      right
      rw [← h3]
      rfl
  | succ n ih =>
      intro s tol g t tr h
      rw [searchLoop] at h
      by_cases h780 : 780 < total_coords_count s
      · rw [if_pos h780] at h
        by_cases htarget : target = 0
        · rw [if_pos htarget] at h
          exact absurd h (by simp)
        · rw [if_neg htarget] at h
          simp only [Option.map_eq_some'] at h
          obtain ⟨q, hq, hmk⟩ := h
          simp only [Prod.mk.injEq] at hmk
          obtain ⟨h1, -, h3⟩ := hmk
          rcases ih _ _ q.1 q.2.1 q.2.2 hq with hle | hlen
          · exact Or.inl (h1 ▸ hle)
          · right
            rw [← h3]
            simp [hlen]
      · rw [if_neg h780] at h
        simp only [Option.some.injEq, Prod.mk.injEq] at h
        obtain ⟨h1, -, -⟩ := h
        exact Or.inl (h1 ▸ le_of_not_lt h780)

/-- Structure of a successful search: every recorded iteration simplified the
original `geom` (never the previous iteration's result) at its recorded
tolerance, and the returned geometry/tolerance are the initial ones when no
iteration ran, else the last recorded pair. -/
lemma searchLoop_trace (prim : Geometry → ℚ → Geometry) (geom : Geometry)
    (target : ℕ) :
    ∀ fuel s tol g t tr,
      searchLoop prim geom target fuel s tol = some (g, t, tr) →
      (∀ p ∈ tr, p.2 = prim geom p.1) ∧
        ((g, t) = match tr.getLast? with
          | none => (s, tol)
          | some p => (p.2, p.1)) := by
  intro fuel
  induction fuel with
  | zero =>
      intro s tol g t tr h
      simp only [searchLoop, Option.some.injEq, Prod.mk.injEq] at h
      obtain ⟨h1, h2, h3⟩ := h
      subst h1; subst h2
      rw [← h3]
      exact ⟨by simp, rfl⟩
  | succ n ih =>
      intro s tol g t tr h
      rw [searchLoop] at h
      by_cases h780 : 780 < total_coords_count s
      · rw [if_pos h780] at h
        by_cases htarget : target = 0
        · rw [if_pos htarget] at h
          exact absurd h (by simp)
        · rw [if_neg htarget] at h
          simp only [Option.map_eq_some'] at h
          obtain ⟨q, hq, hmk⟩ := h
          simp only [Prod.mk.injEq] at hmk
          obtain ⟨h1, h2, h3⟩ := hmk
          obtain ⟨hall, hlast⟩ := ih _ _ q.1 q.2.1 q.2.2 hq
          constructor
          · intro p hp
            rw [← h3] at hp
            rcases List.mem_cons.mp hp with hph | hpt
            · rw [hph]
            · exact hall p hpt
          · rw [← h3, ← h1, ← h2]
            cases hq22 : q.2.2 with
            | nil =>
                rw [hq22] at hlast
                simp only [List.getLast?_singleton]
                simpa using hlast
            | cons hd tl =>
                rw [hq22] at hlast
                rw [List.getLast?_cons_cons]
                exact hlast
      · rw [if_neg h780] at h
        simp only [Option.some.injEq, Prod.mk.injEq] at h
        obtain ⟨h1, h2, h3⟩ := h
        subst h1; subst h2
        rw [← h3]
        exact ⟨by simp, rfl⟩

/-- The initial search tolerance `1e-10` is strictly positive. -/
lemma initTolerance_pos : 0 < initTolerance := by norm_num [initTolerance]

/-- The tolerance update keeps a non-negative tolerance non-negative. -/
lemma stepTol_nonneg {target count : ℕ} {tol : ℚ} (htol : 0 ≤ tol) :
    0 ≤ stepTol target count tol := by
  apply mul_nonneg htol
  apply le_min
  · exact div_nonneg (Nat.cast_nonneg _) (Nat.cast_nonneg _)
  · norm_num

/-- Along a successful search, each recorded tolerance is at most twice its
predecessor (and stays non-negative); no positivity of the target needed. -/
lemma searchLoop_chain_two (prim : Geometry → ℚ → Geometry) (geom : Geometry)
    (target : ℕ) :
    ∀ fuel s tol g t tr, 0 ≤ tol →
      searchLoop prim geom target fuel s tol = some (g, t, tr) →
      List.Chain (fun a b : ℚ => b ≤ 2 * a) tol (tr.map Prod.fst) := by
  intro fuel
  induction fuel with
  | zero =>
      intro s tol g t tr _ h
      simp only [searchLoop, Option.some.injEq, Prod.mk.injEq] at h
      obtain ⟨-, -, h3⟩ := h
      rw [← h3]
      exact List.Chain.nil
  | succ n ih =>
      intro s tol g t tr htol h
      rw [searchLoop] at h
      by_cases h780 : 780 < total_coords_count s
      · rw [if_pos h780] at h
        by_cases htarget : target = 0
        · rw [if_pos htarget] at h
          exact absurd h (by simp)
        · rw [if_neg htarget] at h
          simp only [Option.map_eq_some'] at h
          obtain ⟨q, hq, hmk⟩ := h
          simp only [Prod.mk.injEq] at hmk
          obtain ⟨-, -, h3⟩ := hmk
          have hrec := ih _ _ q.1 q.2.1 q.2.2 (stepTol_nonneg htol) hq
          rw [← h3]
          exact List.Chain.cons (stepTol_le_two_mul htol) hrec
      · rw [if_neg h780] at h
        simp only [Option.some.injEq, Prod.mk.injEq] at h
        obtain ⟨-, -, h3⟩ := h
        rw [← h3]
        exact List.Chain.nil

/-- When the target is positive and at most the hard ceiling 780, a
successful search produces a non-decreasing tolerance sequence, each entry
at most twice its predecessor. -/
lemma searchLoop_chain_mono (prim : Geometry → ℚ → Geometry) (geom : Geometry)
    {target : ℕ} (htarget : target ≠ 0) (hle : target ≤ 780) :
    ∀ fuel s tol g t tr, 0 < tol →
      searchLoop prim geom target fuel s tol = some (g, t, tr) →
      List.Chain (fun a b : ℚ => a ≤ b ∧ b ≤ 2 * a) tol (tr.map Prod.fst) := by
  intro fuel
  induction fuel with
  | zero =>
      intro s tol g t tr _ h
      simp only [searchLoop, Option.some.injEq, Prod.mk.injEq] at h
      obtain ⟨-, -, h3⟩ := h
      rw [← h3]
      exact List.Chain.nil
  | succ n ih =>
      intro s tol g t tr htol h
      rw [searchLoop] at h
      by_cases h780 : 780 < total_coords_count s
      · rw [if_pos h780] at h
        rw [if_neg htarget] at h
        simp only [Option.map_eq_some'] at h
        obtain ⟨q, hq, hmk⟩ := h
        simp only [Prod.mk.injEq] at hmk
        obtain ⟨-, -, h3⟩ := hmk
        have hstep : 0 < stepTol target (total_coords_count s) tol :=
          stepTol_pos htol (by omega) htarget
        have hrec := ih _ _ q.1 q.2.1 q.2.2 hstep hq
        rw [← h3]
        refine List.Chain.cons ⟨?_, stepTol_le_two_mul htol.le⟩ hrec
        exact le_stepTol htol.le htarget (by omega)
      · rw [if_neg h780] at h
        simp only [Option.some.injEq, Prod.mk.injEq] at h
        obtain ⟨-, -, h3⟩ := h
        rw [← h3]
        exact List.Chain.nil

/-- With a nonzero target the search never raises: it always returns a
result. -/
lemma searchLoop_isSome (prim : Geometry → ℚ → Geometry) (geom : Geometry)
    {target : ℕ} (htarget : target ≠ 0) :
    ∀ fuel s tol, (searchLoop prim geom target fuel s tol).isSome := by
  intro fuel
  induction fuel with
  | zero => intro s tol; simp [searchLoop]
  | succ n ih =>
      intro s tol
      rw [searchLoop]
      by_cases h780 : 780 < total_coords_count s
      · rw [if_pos h780, if_neg htarget]
        simpa using ih _ _
      · rw [if_neg h780]
        simp

/-- With a nonzero target, `adaptive_polygon_simplify` always returns. -/
lemma adaptive_polygon_simplify_isSome (prim : Geometry → ℚ → Geometry)
    (geom : Geometry) {target : ℕ} (maxIter : ℕ) (htarget : target ≠ 0) :
    (adaptive_polygon_simplify prim geom target maxIter).isSome := by
  rw [adaptive_polygon_simplify, adaptive_simplify_run]
  by_cases hfast : total_coords_count geom ≤ target
  · rw [if_pos hfast]; rfl
  · rw [if_neg hfast]
    simpa using searchLoop_isSome prim geom htarget _ _ _

/-- The tolerance returned by `adaptive_polygon_simplify` is never negative:
`0.0` on the fast path, strictly positive otherwise. -/
lemma adaptive_tol_nonneg {prim : Geometry → ℚ → Geometry} {geom : Geometry}
    {target maxIter : ℕ} {g : Geometry} {t : ℚ} {o n : ℕ}
    (h : adaptive_polygon_simplify prim geom target maxIter = some (g, t, o, n)) :
    0 ≤ t := by
  rw [adaptive_polygon_simplify] at h
  simp only [Option.map_eq_some'] at h
  obtain ⟨q, hq, hmk⟩ := h
  simp only [Prod.mk.injEq] at hmk
  obtain ⟨-, h2, -⟩ := hmk
  rw [adaptive_simplify_run] at hq
  by_cases hfast : total_coords_count geom ≤ target
  · rw [if_pos hfast] at hq
    simp only [Option.some.injEq] at hq
    rw [← h2, ← hq]
  · rw [if_neg hfast] at hq
    have := searchLoop_tol_pos prim geom target maxIter _ _ q.1 q.2.1 q.2.2
      initTolerance_pos (by rw [hq])
    rw [← h2]
    exact this.le

/-- If the pre-loop pass at `1e-10` already lands at or below 780 points (or
at or below the ceiling before any iteration), the loop body never runs:
the search returns that first pass with tolerance exactly `1e-10`. -/
lemma run_zero_iterations (prim : Geometry → ℚ → Geometry) (geom : Geometry)
    (target maxIter : ℕ) (h1 : target < total_coords_count geom)
    (h2 : total_coords_count (prim geom initTolerance) ≤ 780) :
    adaptive_simplify_run prim geom target maxIter
      = some (prim geom initTolerance, initTolerance, []) := by
  rw [adaptive_simplify_run, if_neg (by omega)]
  cases maxIter with
  | zero => rfl
  | succ n => rw [searchLoop, if_neg (by omega)]

/-- The formatted simplification summary is never the no-simplification
literal: it contains the arrow character, which the literal does not. -/
lemma formattedInfo_ne (fmt : ℚ → String) (tol : ℚ) (o n : ℕ) :
    formattedInfo fmt tol o n ≠ "Aucune simplification" := by
  intro h
  have hm : '→' ∈ (formattedInfo fmt tol o n).data := by
    rw [formattedInfo]
    simp only [String.data_append]
    refine List.mem_append.mpr (Or.inl ?_)
    refine List.mem_append.mpr (Or.inl ?_)
    refine List.mem_append.mpr (Or.inl ?_)
    refine List.mem_append.mpr (Or.inl ?_)
    refine List.mem_append.mpr (Or.inr ?_)
    decide
  rw [h] at hm
  exact absurd hm (by decide)

/-!  Concrete fixtures for witnesses and counterexamples. -/

/-- A polygon whose exterior ring carries `n` coordinate pairs and that has
no holes. -/
def flatPoly (n : ℕ) : Geometry := .polygon (List.replicate n ((0 : ℚ), 0)) []

lemma total_coords_count_flatPoly (n : ℕ) : total_coords_count (flatPoly n) = n := by
  simp [total_coords_count, flatPoly]

/-- A concrete run in which the loop body executes exactly once and the
tolerance shrinks: the simplification primitive always yields an 800-point
polygon, the input has 1600 points and the caller passes
`target_points = 1000` and `max_iterations = 1`.  The single executed
iteration multiplies the tolerance by `min(800/1000, 2) = 4/5 < 1`. -/
lemma one_iteration_run_eq :
    adaptive_simplify_run (fun _ _ => flatPoly 800) (flatPoly 1600) 1000 1
      = some (flatPoly 800, initTolerance * (4 / 5),
          [(initTolerance * (4 / 5), flatPoly 800)]) := by
  have hc8 : total_coords_count (flatPoly 800) = 800 := total_coords_count_flatPoly 800
  have hc16 : total_coords_count (flatPoly 1600) = 1600 := total_coords_count_flatPoly 1600
  simp [adaptive_simplify_run, searchLoop, hc8, hc16, stepTol]
  left
  rw [min_eq_left (by norm_num)]
  norm_num

/-!  The claims. -/

/-- Claim C5: `total_coords_count` of a Polygon is the length of the
exterior ring's coordinate sequence plus the sum of the lengths of all
interior rings' coordinate sequences; it is 0 for any non-Polygon geometry;
and it is a non-negative integer. -/
theorem claim_C5_total_coords_count (e : List Point) (is : List (List Point))
    (g : Geometry) (h : g.isPolygon = false) :
    total_coords_count (.polygon e is) = e.length + (is.map List.length).sum
    ∧ total_coords_count g = 0
    ∧ 0 ≤ total_coords_count g := by
  refine ⟨by simp [total_coords_count], ?_, Nat.zero_le _⟩
  cases g with
  | polygon e2 is2 => exact absurd h (by simp [Geometry.isPolygon])
  | multiPolygon parts => rfl
  | lineString coords => rfl
  | point c => rfl

/-- Witness for C5 at a concrete two-ring polygon and a concrete
LineString. -/
theorem claim_C5_witness :
    total_coords_count (.polygon [((0 : ℚ), 0), (1, 0), (1, 1), (0, 0)]
        [[((0 : ℚ), 0), (0, 1), (0, 0)]])
      = [((0 : ℚ), 0), (1, 0), (1, 1), (0, 0)].length
          + ([[((0 : ℚ), 0), (0, 1), (0, 0)]].map List.length).sum
    ∧ total_coords_count (.lineString [((0 : ℚ), 0), (1, 1)]) = 0
    ∧ 0 ≤ total_coords_count (.lineString [((0 : ℚ), 0), (1, 1)]) :=
  claim_C5_total_coords_count _ _ (.lineString [((0 : ℚ), 0), (1, 1)]) (by decide)

/-- Claim C9: any non-Polygon geometry (a MultiPolygon included) passed
directly to `adaptive_polygon_simplify` with any `target_points` takes the
fast path: geometry unchanged, tolerance `0.0`, original and final counts
both 0, because `total_coords_count` is 0 on non-Polygon input. -/
theorem claim_C9_non_polygon_fast_path (prim : Geometry → ℚ → Geometry)
    (g : Geometry) (target maxIter : ℕ) (h : g.isPolygon = false) :
    total_coords_count g = 0
    ∧ adaptive_polygon_simplify prim g target maxIter = some (g, 0, 0, 0) := by
  have hc : total_coords_count g = 0 := by
    cases g with
    | polygon e2 is2 => exact absurd h (by simp [Geometry.isPolygon])
    | multiPolygon parts => rfl
    | lineString coords => rfl
    | point c => rfl
  refine ⟨hc, ?_⟩
  rw [adaptive_polygon_simplify, adaptive_simplify_run, if_pos (by omega)]
  rw [Option.map_some']
  rw [hc]

/-- Witness for C9 at a concrete two-part MultiPolygon. -/
theorem claim_C9_witness :
    total_coords_count (.multiPolygon [([((0 : ℚ), 0), (1, 0)], []), ([((2 : ℚ), 0)], [])]) = 0
    ∧ adaptive_polygon_simplify (fun g _ => g)
        (.multiPolygon [([((0 : ℚ), 0), (1, 0)], []), ([((2 : ℚ), 0)], [])]) 780 400
      = some (.multiPolygon [([((0 : ℚ), 0), (1, 0)], []), ([((2 : ℚ), 0)], [])], 0, 0, 0) :=
  claim_C9_non_polygon_fast_path _ _ 780 400 (by decide)

/-- Claim C3: when the polygon already has at most `target_points`
coordinates, `adaptive_polygon_simplify` returns it unchanged with tolerance
`0.0` and equal original/final counts; and since the returned geometry is
the input itself, re-running the function on that output (with any
primitive and any iteration budget) returns the very same result — a fixed
point. -/
theorem claim_C3_fast_path_fixed_point (prim : Geometry → ℚ → Geometry)
    (geom : Geometry) (target maxIter : ℕ)
    (h : total_coords_count geom ≤ target) :
    adaptive_polygon_simplify prim geom target maxIter
      = some (geom, 0, total_coords_count geom, total_coords_count geom)
    ∧ ∀ (prim2 : Geometry → ℚ → Geometry) (maxIter2 : ℕ),
        adaptive_polygon_simplify prim2 geom target maxIter2
          = some (geom, 0, total_coords_count geom, total_coords_count geom) := by
  constructor
  · rw [adaptive_polygon_simplify, adaptive_simplify_run, if_pos h, Option.map_some']
  · intro prim2 maxIter2
    rw [adaptive_polygon_simplify, adaptive_simplify_run, if_pos h, Option.map_some']

/-- Witness for C3 at a concrete 5-point polygon with the default target. -/
theorem claim_C3_witness :
    adaptive_polygon_simplify (fun g _ => g) (flatPoly 5) 780 400
      = some (flatPoly 5, 0, total_coords_count (flatPoly 5), total_coords_count (flatPoly 5))
    ∧ ∀ (prim2 : Geometry → ℚ → Geometry) (maxIter2 : ℕ),
        adaptive_polygon_simplify prim2 (flatPoly 5) 780 maxIter2
          = some (flatPoly 5, 0, total_coords_count (flatPoly 5),
              total_coords_count (flatPoly 5)) :=
  claim_C3_fast_path_fixed_point _ _ 780 400 (by decide)

/-- Claim C1: when the polygon has more than `target_points` coordinates,
the function enters the search whose continuation condition compares the
count against the fixed constant 780 (as the definition of `searchLoop`
does, independently of `target_points`); whenever it returns, the returned
tolerance is strictly positive and either the result has at most 780
coordinates or the trace shows exactly `max_iterations` executed loop
iterations. -/
theorem claim_C1_convergence (prim : Geometry → ℚ → Geometry) (geom : Geometry)
    (target maxIter : ℕ) (g : Geometry) (tol : ℚ) (tr : List (ℚ × Geometry))
    (hgt : target < total_coords_count geom)
    (hrun : adaptive_simplify_run prim geom target maxIter = some (g, tol, tr)) :
    adaptive_polygon_simplify prim geom target maxIter
      = some (g, tol, total_coords_count geom, total_coords_count g)
    ∧ 0 < tol
    ∧ (total_coords_count g ≤ 780 ∨ tr.length = maxIter) := by
  have hrun2 : searchLoop prim geom target maxIter (prim geom initTolerance)
      initTolerance = some (g, tol, tr) := by
    rw [adaptive_simplify_run, if_neg (by omega)] at hrun
    exact hrun
  refine ⟨?_, ?_, ?_⟩
  · rw [adaptive_polygon_simplify, hrun, Option.map_some']
  · exact searchLoop_tol_pos prim geom target maxIter _ _ g tol tr
      initTolerance_pos hrun2
  · exact searchLoop_exit prim geom target maxIter _ _ g tol tr hrun2

/-- Witness for C1: an 800-point polygon, default target 780, a primitive
that immediately reaches 10 points; the loop runs zero times and the
returned tolerance is `1e-10 > 0`. -/
theorem claim_C1_witness :
    adaptive_polygon_simplify (fun _ _ => flatPoly 10) (flatPoly 800) 780 400
      = some (flatPoly 10, initTolerance, total_coords_count (flatPoly 800),
          total_coords_count (flatPoly 10))
    ∧ 0 < initTolerance
    ∧ (total_coords_count (flatPoly 10) ≤ 780
        ∨ ([] : List (ℚ × Geometry)).length = 400) :=
  claim_C1_convergence (fun _ _ => flatPoly 10) (flatPoly 800) 780 400
    (flatPoly 10) initTolerance [] (by decide) rfl

/-- Claim C4: every executed iteration of the search applies the
simplification primitive to the original input polygon at the updated
cumulative tolerance — never to the previous iteration's simplified result —
and the returned geometry is the primitive applied to the original polygon
at the returned tolerance whenever at least one iteration ran. -/
theorem claim_C4_simplify_from_original (prim : Geometry → ℚ → Geometry)
    (geom : Geometry) (target maxIter : ℕ) (g : Geometry) (tol : ℚ)
    (tr : List (ℚ × Geometry))
    (hrun : adaptive_simplify_run prim geom target maxIter = some (g, tol, tr)) :
    (∀ p ∈ tr, p.2 = prim geom p.1)
    ∧ (∀ p, tr.getLast? = some p → g = prim geom tol ∧ tol = p.1) := by
  by_cases hfast : total_coords_count geom ≤ target
  · rw [adaptive_simplify_run, if_pos hfast] at hrun
    simp only [Option.some.injEq, Prod.mk.injEq] at hrun
    obtain ⟨-, -, h3⟩ := hrun
    rw [← h3]
    exact ⟨by simp, by simp⟩
  · rw [adaptive_simplify_run, if_neg hfast] at hrun
    obtain ⟨hall, hlast⟩ := searchLoop_trace prim geom target maxIter _ _ g tol tr hrun
    refine ⟨hall, ?_⟩
    intro p hp
    rw [hp] at hlast
    simp only at hlast
    have hmem : p ∈ tr := by
      obtain ⟨hne, hpe⟩ := List.mem_getLast?_eq_getLast (Option.mem_def.mpr hp)
      exact hpe ▸ List.getLast_mem hne
    have h2 : p.2 = prim geom p.1 := hall p hmem
    simp only [Prod.mk.injEq] at hlast
    obtain ⟨hg, ht⟩ := hlast
    subst hg; subst ht
    exact ⟨h2, rfl⟩

/-- Witness for C4: a run whose single executed iteration recorded the pair
(new tolerance, primitive applied to the original polygon). -/
theorem claim_C4_witness :
    (∀ p ∈ [(initTolerance * (4 / 5), flatPoly 800)],
        p.2 = (fun (_ : Geometry) (_ : ℚ) => flatPoly 800) (flatPoly 1600) p.1)
    ∧ (∀ p, ([(initTolerance * (4 / 5), flatPoly 800)] : List (ℚ × Geometry)).getLast?
          = some p →
        flatPoly 800
            = (fun (_ : Geometry) (_ : ℚ) => flatPoly 800) (flatPoly 1600)
                (initTolerance * (4 / 5))
          ∧ initTolerance * (4 / 5) = p.1) :=
  claim_C4_simplify_from_original (fun _ _ => flatPoly 800) (flatPoly 1600) 1000 1
    (flatPoly 800) (initTolerance * (4 / 5)) [(initTolerance * (4 / 5), flatPoly 800)]
    one_iteration_run_eq

/-- Claim C2 (amended): along any successful run the tolerance sequence
(`1e-10` followed by the recorded per-iteration tolerances) satisfies, at
every step, `new ≤ 2 × previous`; and under the additional hypothesis
`0 < target_points ≤ 780` — which holds in particular for the default
`target_points = 780`, the only way the source ever calls the function —
the sequence is also non-decreasing.  Without that hypothesis monotonicity
fails, see the counterexample. -/
theorem claim_C2_tolerance_chain (prim : Geometry → ℚ → Geometry)
    (geom : Geometry) (target maxIter : ℕ) (g : Geometry) (tol : ℚ)
    (tr : List (ℚ × Geometry))
    (hrun : adaptive_simplify_run prim geom target maxIter = some (g, tol, tr)) :
    List.Chain (fun a b : ℚ => b ≤ 2 * a) initTolerance (tr.map Prod.fst)
    ∧ (0 < target → target ≤ 780 →
        List.Chain (fun a b : ℚ => a ≤ b ∧ b ≤ 2 * a) initTolerance
          (tr.map Prod.fst)) := by
  by_cases hfast : total_coords_count geom ≤ target
  · rw [adaptive_simplify_run, if_pos hfast] at hrun
    simp only [Option.some.injEq, Prod.mk.injEq] at hrun
    obtain ⟨-, -, h3⟩ := hrun
    rw [← h3]
    exact ⟨List.Chain.nil, fun _ _ => List.Chain.nil⟩
  · rw [adaptive_simplify_run, if_neg hfast] at hrun
    refine ⟨?_, ?_⟩
    · exact searchLoop_chain_two prim geom target maxIter _ _ g tol tr
        initTolerance_pos.le hrun
    · intro h1 h2
      exact searchLoop_chain_mono prim geom (by omega) h2 maxIter _ _ g tol tr
        initTolerance_pos hrun

/-- Counterexample to C2 as stated: with `target_points = 1000` (> 780) and
a primitive holding the count at 800, the single executed iteration
multiplies the tolerance by `min(800/1000, 2) = 4/5`, so the tolerance
sequence `[1e-10, 1e-10 * 4/5]` strictly decreases. -/
theorem claim_C2_counterexample :
    adaptive_simplify_run (fun _ _ => flatPoly 800) (flatPoly 1600) 1000 1
      = some (flatPoly 800, initTolerance * (4 / 5),
          [(initTolerance * (4 / 5), flatPoly 800)])
    ∧ ¬ List.Chain (fun a b : ℚ => a ≤ b ∧ b ≤ 2 * a) initTolerance
        (([(initTolerance * (4 / 5), flatPoly 800)] : List (ℚ × Geometry)).map
          Prod.fst) := by
  refine ⟨one_iteration_run_eq, ?_⟩
  intro h
  simp only [List.map_cons, List.map_nil, List.chain_cons] at h
  obtain ⟨⟨hmono, -⟩, -⟩ := h
  rw [initTolerance] at hmono
  norm_num at hmono

/-- Witness for the amended C2: the default-parameter run of the C1 witness,
whose tolerance sequence `[1e-10]` satisfies both chains. -/
theorem claim_C2_witness :
    List.Chain (fun a b : ℚ => b ≤ 2 * a) initTolerance
      (([] : List (ℚ × Geometry)).map Prod.fst)
    ∧ (0 < 780 → 780 ≤ 780 →
        List.Chain (fun a b : ℚ => a ≤ b ∧ b ≤ 2 * a) initTolerance
          (([] : List (ℚ × Geometry)).map Prod.fst)) :=
  claim_C2_tolerance_chain (fun _ _ => flatPoly 10) (flatPoly 800) 780 400
    (flatPoly 10) initTolerance [] rfl

/-- Claim C10: when the polygon is over target, the pre-loop pass runs at
tolerance exactly `1e-10`; if that single pass already lands at or below
780 points, the loop body executes zero times (empty trace) and the
returned tolerance is exactly `1e-10 > 0`; consequently the pipeline's
per-polygon record carries the formatted simplification summary (not the
no-simplification literal) even when the point count is unchanged. -/
theorem claim_C10_preloop_pass (prim : Geometry → ℚ → Geometry)
    (fmt : ℚ → String) (enc : Geometry → String) (props : Props)
    (geom : Geometry) (target maxIter : ℕ)
    (h1 : target < total_coords_count geom)
    (h2 : total_coords_count (prim geom initTolerance) ≤ 780) :
    adaptive_simplify_run prim geom target maxIter
      = some (prim geom initTolerance, initTolerance, [])
    ∧ adaptive_polygon_simplify prim geom target maxIter
        = some (prim geom initTolerance, initTolerance, total_coords_count geom,
            total_coords_count (prim geom initTolerance))
    ∧ 0 < initTolerance
    ∧ (780 < total_coords_count geom →
        processPoly prim fmt enc props geom
          = some ({ props := props,
                    geometry := enc (prim geom initTolerance),
                    simplification_info := formattedInfo fmt initTolerance
                      (total_coords_count geom)
                      (total_coords_count (prim geom initTolerance)) },
                  { geometry := prim geom initTolerance, properties := props })) := by
  have hrun := run_zero_iterations prim geom target maxIter h1 h2
  refine ⟨hrun, ?_, initTolerance_pos, ?_⟩
  · rw [adaptive_polygon_simplify, hrun, Option.map_some']
  · intro h780
    have hrun2 := run_zero_iterations prim geom 780 400 h780 h2
    rw [processPoly, adaptive_polygon_simplify, hrun2, Option.map_some']
    dsimp only
    rw [if_pos initTolerance_pos]

/-- Witness for C10: an 800-point polygon with default parameters and a
primitive that drops it to 10 points in the pre-loop pass. -/
theorem claim_C10_witness :
    adaptive_simplify_run (fun _ _ => flatPoly 10) (flatPoly 800) 780 400
      = some (flatPoly 10, initTolerance, [])
    ∧ adaptive_polygon_simplify (fun _ _ => flatPoly 10) (flatPoly 800) 780 400
        = some (flatPoly 10, initTolerance, total_coords_count (flatPoly 800),
            total_coords_count (flatPoly 10))
    ∧ 0 < initTolerance
    ∧ (780 < total_coords_count (flatPoly 800) →
        processPoly (fun _ _ => flatPoly 10) (fun _ => "1e-10") (fun _ => "json")
            [("nom", "ser")] (flatPoly 800)
          = some ({ props := [("nom", "ser")],
                    geometry := "json",
                    simplification_info := formattedInfo (fun _ => "1e-10")
                      initTolerance (total_coords_count (flatPoly 800))
                      (total_coords_count (flatPoly 10)) },
                  { geometry := flatPoly 10, properties := [("nom", "ser")] })) :=
  claim_C10_preloop_pass (fun _ _ => flatPoly 10) (fun _ => "1e-10")
    (fun _ => "json") [("nom", "ser")] (flatPoly 800) 780 400
    (by decide) (by decide)

/-- With the pipeline's fixed call `adaptive_polygon_simplify(poly)`
(target 780, 400 iterations) the per-polygon processing always succeeds. -/
lemma processPoly_isSome (prim : Geometry → ℚ → Geometry) (fmt : ℚ → String)
    (enc : Geometry → String) (props : Props) (poly : Geometry) :
    (processPoly prim fmt enc props poly).isSome := by
  rw [processPoly]
  obtain ⟨r, hr⟩ := Option.isSome_iff_exists.mp
    (@adaptive_polygon_simplify_isSome prim poly 780 400 (by norm_num))
  rw [hr]
  obtain ⟨g, tol, o, n⟩ := r
  rfl

/-- The inner polygon loop always succeeds. -/
lemma processPolys_ok (prim : Geometry → ℚ → Geometry) (fmt : ℚ → String)
    (enc : Geometry → String) (props : Props) :
    ∀ ps, ∃ rf, processPolys prim fmt enc props ps = some rf := by
  intro ps
  induction ps with
  | nil => exact ⟨([], []), rfl⟩
  | cons p ps ih =>
      obtain ⟨⟨rec, feat⟩, hp⟩ := Option.isSome_iff_exists.mp
        (processPoly_isSome prim fmt enc props p)
      obtain ⟨⟨recs, feats⟩, hps⟩ := ih
      refine ⟨(rec :: recs, feat :: feats), ?_⟩
      rw [processPolys, hp, hps]

/-- The per-feature processing always succeeds. -/
lemma processFeature_ok (prim : Geometry → ℚ → Geometry) (fmt : ℚ → String)
    (enc : Geometry → String) (f : Feature) :
    ∃ rf, processFeature prim fmt enc f = .ok rf := by
  obtain ⟨rf, hrf⟩ := processPolys_ok prim fmt enc f.properties (explodePolys f.geometry)
  exact ⟨rf, by rw [processFeature, hrf]⟩

/-- The outer feature loop always succeeds. -/
lemma processFeatures_ok (prim : Geometry → ℚ → Geometry) (fmt : ℚ → String)
    (enc : Geometry → String) :
    ∀ fs, ∃ rf, processFeatures prim fmt enc fs = .ok rf := by
  intro fs
  induction fs with
  | nil => exact ⟨([], []), rfl⟩
  | cons f fs ih =>
      obtain ⟨⟨recs, feats⟩, hf⟩ := processFeature_ok prim fmt enc f
      obtain ⟨⟨recs2, feats2⟩, hfs⟩ := ih
      refine ⟨(recs ++ recs2, feats ++ feats2), ?_⟩
      rw [processFeatures, hf, hfs]

/-- Claim C6: decomposition of a MultiPolygon of N parts yields exactly N
(polygon, attributes) pairs, each carrying the feature's properties; a
single Polygon yields exactly one pair; any other geometry kind yields
nothing, and the pipeline then emits zero rows and zero features for that
feature, without an error. -/
theorem claim_C6_decompose (f : Feature) :
    (∀ parts, f.geometry = .multiPolygon parts →
        decompose f = parts.map (fun p => (Geometry.polygon p.1 p.2, f.properties))
        ∧ (decompose f).length = parts.length
        ∧ ∀ q ∈ decompose f, q.2 = f.properties)
    ∧ (∀ e is, f.geometry = .polygon e is →
        decompose f = [(.polygon e is, f.properties)])
    ∧ (f.geometry.isPolyKind = false →
        decompose f = []
        ∧ ∀ (prim : Geometry → ℚ → Geometry) (fmt : ℚ → String)
            (enc : Geometry → String),
            processFeature prim fmt enc f = .ok ([], [])) := by
  refine ⟨?_, ?_, ?_⟩
  · intro parts hg
    refine ⟨?_, ?_, ?_⟩
    · rw [decompose, hg]
      simp [explodePolys, List.map_map, Function.comp]
    · rw [decompose, hg]
      simp [explodePolys]
    · intro q hq
      rw [decompose] at hq
      simp only [List.mem_map] at hq
      obtain ⟨g, -, hq2⟩ := hq
      rw [← hq2]
  · intro e is hg
    rw [decompose, hg]
    rfl
  · intro h
    have hexp : explodePolys f.geometry = [] := by
      cases hg : f.geometry with
      | polygon e is =>
          rw [hg] at h
          exact absurd h (by simp [Geometry.isPolyKind])
      | multiPolygon parts =>
          rw [hg] at h
          exact absurd h (by simp [Geometry.isPolyKind])
      | lineString c => rfl
      | point c => rfl
    refine ⟨by rw [decompose, hexp]; rfl, fun prim fmt enc => ?_⟩
    rw [processFeature, hexp]
    rfl

/-- Witness for C6: a concrete 2-part MultiPolygon feature yields 2 pairs
carrying its properties, and a concrete LineString feature decomposes to
nothing. -/
theorem claim_C6_witness :
    decompose ⟨.multiPolygon [([((0 : ℚ), 0), (1, 0)], []),
        ([((2 : ℚ), 0), (3, 0)], [[((9 : ℚ), 9)]])], [("nom", "a")]⟩
      = [(.polygon [((0 : ℚ), 0), (1, 0)] [], [("nom", "a")]),
         (.polygon [((2 : ℚ), 0), (3, 0)] [[((9 : ℚ), 9)]], [("nom", "a")])]
    ∧ decompose ⟨.lineString [((0 : ℚ), 0)], [("nom", "a")]⟩ = [] := by
  constructor
  · have h := (claim_C6_decompose ⟨.multiPolygon [([((0 : ℚ), 0), (1, 0)], []),
        ([((2 : ℚ), 0), (3, 0)], [[((9 : ℚ), 9)]])], [("nom", "a")]⟩).1
      [([((0 : ℚ), 0), (1, 0)], []), ([((2 : ℚ), 0), (3, 0)], [[((9 : ℚ), 9)]])] rfl
    rw [h.1]
    rfl
  · exact ((claim_C6_decompose ⟨.lineString [((0 : ℚ), 0)], [("nom", "a")]⟩).2.2 rfl).1

/-- Claim C7: the pipeline run fails (raises) precisely when the top-level
`type` field is neither `"Feature"` nor `"FeatureCollection"`; in the
`Except` embedding the `.error` outcome carries no output, matching the fact
that the Python exception is raised before either output file is written. -/
theorem claim_C7_invalid_input (prim : Geometry → ℚ → Geometry)
    (fmt : ℚ → String) (enc : Geometry → String) (d : RawInput) :
    (∃ e, geojson_to_excel_with_exploded_multipolygons prim fmt enc d = .error e)
    ↔ (d.typeField ≠ some "FeatureCollection" ∧ d.typeField ≠ some "Feature") := by
  constructor
  · rintro ⟨e, he⟩
    constructor
    · intro hfc
      rw [geojson_to_excel_with_exploded_multipolygons, normalizeFeatures,
        if_pos hfc] at he
      obtain ⟨rf, hrf⟩ := processFeatures_ok prim fmt enc d.featuresField
      dsimp only at he
      rw [hrf] at he
      exact absurd he (by simp)
    · intro hf
      rw [geojson_to_excel_with_exploded_multipolygons, normalizeFeatures,
        if_neg (by rw [hf]; decide), if_pos hf] at he
      obtain ⟨rf, hrf⟩ := processFeatures_ok prim fmt enc [d.selfFeature]
      dsimp only at he
      rw [hrf] at he
      exact absurd he (by simp)
  · rintro ⟨h1, h2⟩
    refine ⟨"Le fichier GeoJSON ne contient pas une Feature ou FeatureCollection valide.", ?_⟩
    rw [geojson_to_excel_with_exploded_multipolygons, normalizeFeatures,
      if_neg h1, if_neg h2]

/-- Claim C8: the row's `simplification_info` is the literal
`"Aucune simplification"` exactly when the returned tolerance is 0, and
otherwise it is the formatted `"{original}→{final} points (tolérance=...)"`
summary built with the `.0e` formatter. -/
theorem claim_C8_simplification_info (prim : Geometry → ℚ → Geometry)
    (fmt : ℚ → String) (enc : Geometry → String) (props : Props)
    (poly g : Geometry) (tol : ℚ) (o n : ℕ) (rec : Record) (feat : OutFeature)
    (hA : adaptive_polygon_simplify prim poly 780 400 = some (g, tol, o, n))
    (hP : processPoly prim fmt enc props poly = some (rec, feat)) :
    (rec.simplification_info = "Aucune simplification" ↔ tol = 0)
    ∧ (tol ≠ 0 → rec.simplification_info = formattedInfo fmt tol o n) := by
  rw [processPoly, hA] at hP
  dsimp only at hP
  simp only [Option.some.injEq, Prod.mk.injEq] at hP
  obtain ⟨hrec, -⟩ := hP
  have hinfo : rec.simplification_info
      = if 0 < tol then formattedInfo fmt tol o n else "Aucune simplification" := by
    rw [← hrec]
  have hnn : 0 ≤ tol := adaptive_tol_nonneg hA
  rcases eq_or_lt_of_le hnn with h0 | hpos
  · rw [hinfo, if_neg (by rw [← h0]; exact lt_irrefl 0)]
    exact ⟨⟨fun _ => h0.symm, fun _ => rfl⟩, fun hne => absurd h0.symm hne⟩
  · rw [hinfo, if_pos hpos]
    constructor
    · constructor
      · intro hcon
        exact absurd hcon (formattedInfo_ne fmt tol o n)
      · intro h0'
        rw [h0'] at hpos
        exact absurd hpos (lt_irrefl 0)
    · intro _
      rfl

/-- Witness for C8 at a small polygon (fast path: tolerance 0, literal) —
the hypotheses are discharged by evaluating the definitions. -/
theorem claim_C8_witness :
    (({ props := [("nom", "a")], geometry := "json",
        simplification_info := "Aucune simplification" } : Record).simplification_info
        = "Aucune simplification" ↔ (0 : ℚ) = 0)
    ∧ ((0 : ℚ) ≠ 0 →
        ({ props := [("nom", "a")], geometry := "json",
           simplification_info := "Aucune simplification" } : Record).simplification_info
          = formattedInfo (fun _ => "0e+00") 0 5 5) := by
  have hA : adaptive_polygon_simplify (fun g _ => g) (flatPoly 5) 780 400
      = some (flatPoly 5, 0, 5, 5) := by
    rw [adaptive_polygon_simplify, adaptive_simplify_run,
      if_pos (by decide), Option.map_some']
    rw [total_coords_count_flatPoly]
  have hP : processPoly (fun g _ => g) (fun _ => "0e+00") (fun _ => "json")
      [("nom", "a")] (flatPoly 5)
      = some ({ props := [("nom", "a")], geometry := "json",
                simplification_info := "Aucune simplification" },
              { geometry := flatPoly 5, properties := [("nom", "a")] }) := by
    rw [processPoly, hA]
    dsimp only
    rw [if_neg (lt_irrefl 0)]
  exact claim_C8_simplification_info (fun g _ => g) (fun _ => "0e+00")
    (fun _ => "json") [("nom", "a")] (flatPoly 5) (flatPoly 5) 0 5 5
    { props := [("nom", "a")], geometry := "json",
      simplification_info := "Aucune simplification" }
    { geometry := flatPoly 5, properties := [("nom", "a")] } hA hP
